import Mathlib

/-!
Verification of the lan-chat relay server core (src/index.js).

The server keeps four pieces of mutable state: `adminLongTermPublicKey`
(a JS value, initially `null`), `adminWs` (the admin's WebSocket, or
`null`), `userConnections` (a `Map` from wsId to the user's session) and
`adminConnections` (a `Map` from wsId to the admin's session), plus the
`nextWsId` counter.  The transport delivers three events per connection:
`open`, `message` and `close`.  We embed the JS values exchanged on the
wire as `JVal`, the server state as `ServerState`, and the three handlers
as pure functions from state to state paired with the list of outbound
effects (`send` / `close`) they perform, in order.
-/

namespace LanChat

/-- A JSON-ish JavaScript value as it appears in parsed envelopes and in
the state variables (`undefined` included, since `parsed.key` is
`undefined` when the field is absent). -/
inductive JVal where
  | undef
  | null
  | bool (b : Bool)
  | num (n : Int)
  | str (s : String)
  | arr (xs : List JVal)
  | obj (fields : List (String × JVal))

/-- JavaScript truthiness, as tested by `!adminLongTermPublicKey`,
`targetId && ...` etc.  `undefined`, `null`, `false`, `0` and `""` are
falsy; every object or array is truthy. -/
def JVal.truthy : JVal → Bool
  | .undef => false
  | .null => false
  | .bool b => b
  | .num n => n != 0
  | .str s => s != ""
  | .arr _ => true
  | .obj _ => true

/-- Strict equality (`===`) of a JS value against a string literal: the
only form of value comparison the server performs on envelope fields. -/
def JVal.isStr : JVal → String → Bool
  | .str t, s => t == s
  | _, _ => false

/-- Template-literal coercion of a JS value to a string (used only in the
text of the `ERROR` envelope). -/
def jsToString : JVal → String
  | .undef => "undefined"
  | .null => "null"
  | .bool true => "true"
  | .bool false => "false"
  | .num n => toString n
  | .str s => s
  | .arr xs => String.intercalate "," (xs.attach.map fun x => jsToString x.1)
  | .obj _ => "[object Object]"
termination_by v => sizeOf v
decreasing_by
  simp_wf
  have := List.sizeOf_lt_of_mem x.2
  omega

/-- A parsed JSON envelope: a JS object, i.e. an ordered list of
(field name, value) pairs. -/
abbrev Env := List (String × JVal)

/-- Property read `parsed.k`: the value of the first field named `k`,
`undefined` when absent. -/
def getField : Env → String → JVal
  | [], _ => .undef
  | (k', v) :: rest, k => if k' = k then v else getField rest k

/-- Property write `parsed.k = v`: overwrite the existing field in place,
or append a new one. -/
def setField : Env → String → JVal → Env
  | [], k, v => [(k, v)]
  | (k', v') :: rest, k, v =>
      if k' = k then (k, v) :: rest else (k', v') :: setField rest k v

/-- The role stored in `ws.data.role` at open time. -/
inductive Role where
  | admin
  | user
deriving DecidableEq

/-- `ws.data.role` per connection id; `none` models a connection whose
`role` property was never assigned (JS `undefined`). -/
def lookupRole : List (Nat × Role) → Nat → Option Role
  | [], _ => none
  | (i, r) :: rest, id => if i = id then some r else lookupRole rest id

/-- Assignment `ws.data.role = r` (overwrites any previous value). -/
def setRole : List (Nat × Role) → Nat → Role → List (Nat × Role)
  | [], id, r => [(id, r)]
  | (i, r') :: rest, id, r =>
      if i = id then (id, r) :: rest else (i, r') :: setRole rest id r

/-- `Map.set(id, ...)` on a map whose stored value is determined by its
key (the session record holds only the `ws` of that id): the key set
gains `id`, insertion order preserved. -/
def mapSet (l : List Nat) (id : Nat) : List Nat :=
  if l.contains id then l else l ++ [id]

/-- The whole mutable server state. -/
structure ServerState where
  adminLongTermPublicKey : JVal
  adminWs : Option Nat
  userConnections : List Nat
  adminConnections : List Nat
  roles : List (Nat × Role)
  nextWsId : Nat

/-- State at process start: key `null`, no admin, empty maps, counter 1. -/
def initState : ServerState :=
  { adminLongTermPublicKey := .null
    adminWs := none
    userConnections := []
    adminConnections := []
    roles := []
    nextWsId := 1 }

/-- An outbound effect: `ws.send(JSON.stringify(payload))` modelled as
the payload object, or `ws.close(code?, reason?)`. -/
inductive Output where
  | send (dst : Nat) (payload : Env)
  | close (id : Nat) (code : Option Nat) (reason : Option String)

set_option linter.unusedVariables false in
/-- `findPeer(senderId, senderRole, targetId)` from src/index.js:
admin with a truthy `targetId` looks the user up in `userConnections`
(a `Map` keyed by numeric wsId, so only a numeric `targetId` can hit);
a user always resolves to `adminWs`; anything else resolves to nobody.
`senderId` is kept from the source signature though the body ignores it. -/
def findPeer (s : ServerState) (senderId : Nat) (senderRole : Option Role)
    (targetId : JVal) : Option Nat :=
  if senderRole = some Role.admin ∧ targetId.truthy = true then
    match targetId with
    | .num n => s.userConnections.find? (fun u => (u : Int) == n)
    | _ => none
  else if senderRole = some Role.user then
    s.adminWs
  else
    none

/-- The `ERROR` envelope sent back on failed peer resolution. -/
def errorEnv (targetId : JVal) : Env :=
  [("type", .str "ERROR"),
   ("message", .str ("未找到目标会话 ID: " ++
     (if targetId.truthy then jsToString targetId else "管理员")))]

/-- The `STATUS` acknowledgment sent to the admin after a key store. -/
def keyStoredEnv : Env :=
  [("type", .str "STATUS"), ("message", .str "长期公钥已存储，可用于身份验证。")]

/-- The `STATUS` envelope sent on connect. -/
def statusRoleEnv (r : String) : Env :=
  [("type", .str "STATUS"), ("role", .str r)]

/-- The `NEW_USER` notification sent to the admin. -/
def newUserEnv (id : Nat) : Env :=
  [("type", .str "NEW_USER"), ("userId", .num id),
   ("message", .str s!"新用户 (ID: {id}) 已连接。")]

/-- The `USER_LEFT` notification sent to the admin. -/
def userLeftEnv (id : Nat) : Env :=
  [("type", .str "USER_LEFT"), ("userId", .num id),
   ("message", .str s!"用户 (ID: {id}) 已断开。")]

/-- The `STATUS` notice sent to each user when the admin disconnects. -/
def adminOfflineEnv : Env :=
  [("type", .str "STATUS"), ("message", .str "管理员已离线，会话结束。")]

/-- The `open(ws)` handler.  `ws.data.role` is set to `'user'` when
`adminWs` is truthy and `'admin'` otherwise; an admin is installed in the
admin slot (the inner `if (adminWs)` close guard is kept verbatim from
the source), a user is recorded in `userConnections` and announced to the
admin when one is present. -/
def wsOpen (s : ServerState) (id : Nat) : ServerState × List Output :=
  let role := if s.adminWs.isSome then Role.user else Role.admin
  let s1 := { s with roles := setRole s.roles id role }
  if role = Role.admin then
    if s1.adminWs.isSome then
      (s1, [Output.close id (some 1000) (some "Admin already connected")])
    else
      ({ s1 with adminWs := some id,
                 adminConnections := mapSet s1.adminConnections id },
       [Output.send id (statusRoleEnv "admin")])
  else
    let s2 := { s1 with userConnections := mapSet s1.userConnections id }
    match s2.adminWs with
    | some a => (s2, [Output.send id (statusRoleEnv "user"),
                      Output.send a (newUserEnv id)])
    | none => (s2, [Output.send id (statusRoleEnv "user")])

/-- The `message(ws, message)` handler, for an envelope that already
parsed as JSON (an unparsable message returns with no effect and is not
modelled further).  Mirrors the source's sequential dispatch on
`parsed.type`.  On the `SET_ADMIN_KEY` success path the source calls
`adminWs.send(...)`; when `adminWs` is `null` that line would throw, a
state unreachable from any event trace, modelled here as no send. -/
def message (s : ServerState) (id : Nat) (parsed : Env) :
    ServerState × List Output :=
  let senderId := id
  let senderRole := lookupRole s.roles id
  if (getField parsed "type").isStr "SET_ADMIN_KEY" then
    if senderRole = some Role.admin ∧ s.adminLongTermPublicKey.truthy = false then
      let s' := { s with adminLongTermPublicKey := getField parsed "key" }
      match s'.adminWs with
      | some a => (s', [Output.send a keyStoredEnv])
      | none => (s', [])
    else (s, [])
  else if (getField parsed "type").isStr "REQUEST_ADMIN_KEY"
      ∧ s.adminLongTermPublicKey.truthy = true then
    (s, [Output.send id [("type", .str "ADMIN_KEY_RESPONSE"),
                         ("key", s.adminLongTermPublicKey)]])
  else if (getField parsed "type").isStr "PUBLIC_KEY"
      || (getField parsed "type").isStr "MESSAGE" then
    let targetId := getField parsed "targetId"
    match findPeer s senderId senderRole targetId with
    | some peer =>
        (s, [Output.send peer (setField parsed "senderId" (.num senderId))])
    | none =>
        (s, [Output.send id (errorEnv targetId)])
  else
    (s, [])

/-- The `close(ws, code, reason)` handler.  `ws === adminWs` is object
identity, decided here by the unique wsId.  Admin close notifies and
closes every user in insertion order, then clears the admin slot and both
maps; a user close removes just that entry and notifies the admin when
one is present. -/
def wsClose (s : ServerState) (id : Nat) : ServerState × List Output :=
  if s.adminWs = some id then
    ({ s with adminWs := none,
              adminConnections := s.adminConnections.filter (· ≠ id),
              userConnections := [] },
     (s.userConnections.map fun u =>
        [Output.send u adminOfflineEnv, Output.close u none none]).flatten)
  else
    let s' := { s with userConnections := s.userConnections.filter (· ≠ id) }
    match s.adminWs with
    | some a => (s', [Output.send a (userLeftEnv id)])
    | none => (s', [])

/-- One transport event.  A `connect` performs the id allocation done in
`fetch` (`nextWsId++`) followed by `open`. -/
inductive Event where
  | connect
  | msg (id : Nat) (parsed : Env)
  | disconnect (id : Nat)

/-- Dispatch one event. -/
def step (s : ServerState) : Event → ServerState × List Output
  | .connect => wsOpen { s with nextWsId := s.nextWsId + 1 } s.nextWsId
  | .msg id parsed => message s id parsed
  | .disconnect id => wsClose s id

/-- Run a list of events from a state, accumulating outputs in order. -/
def run (s : ServerState) : List Event → ServerState × List Output
  | [] => (s, [])
  | e :: es =>
      let r := step s e
      let r' := run r.1 es
      (r'.1, r.2 ++ r'.2)

/-- Recognizer for `close` outputs. -/
def isCloseOutput : Output → Bool
  | .close _ _ _ => true
  | .send _ _ => false

end LanChat

namespace LanChat

/-! ### Helper lemmas about the small map/object operations -/

theorem lookupRole_setRole (rs : List (Nat × Role)) (id : Nat) (r : Role) :
    lookupRole (setRole rs id r) id = some r := by
  induction rs with
  | nil => simp [setRole, lookupRole]
  | cons p rest ih =>
      obtain ⟨i, r'⟩ := p
      by_cases h : i = id <;> simp [setRole, lookupRole, h, ih]

theorem getField_setField_self (e : Env) (k : String) (v : JVal) :
    getField (setField e k v) k = v := by
  induction e with
  | nil => simp [setField, getField]
  | cons p rest ih =>
      obtain ⟨k', v'⟩ := p
      by_cases h : k' = k <;> simp [setField, getField, h, ih]

theorem getField_setField_ne (e : Env) (k k' : String) (v : JVal)
    (h : k' ≠ k) : getField (setField e k v) k' = getField e k' := by
  have h' : k ≠ k' := Ne.symm h
  induction e with
  | nil => simp [setField, getField, h']
  | cons p rest ih =>
      obtain ⟨k₀, v₀⟩ := p
      by_cases h₀ : k₀ = k
      · subst h₀
        simp [setField, getField, h']
      · simp only [setField, getField, if_neg h₀]
        by_cases h₁ : k₀ = k' <;> simp [getField, h₁, ih]

theorem mem_mapSet_self (l : List Nat) (id : Nat) : id ∈ mapSet l id := by
  unfold mapSet
  split
  · rename_i h
    simpa using h
  · simp

theorem findPeer_admin_some (s : ServerState) (sid u : Nat) (t : JVal)
    (h : findPeer s sid (some Role.admin) t = some u) :
    u ∈ s.userConnections ∧ JVal.num u = t := by
  unfold findPeer at h
  split at h
  · cases t with
    | num n =>
        refine ⟨List.mem_of_find?_eq_some h, ?_⟩
        have hp := List.find?_some h
        simp at hp
        simp [hp]
    | undef => simp at h
    | null => simp at h
    | bool b => simp at h
    | str s => simp at h
    | arr xs => simp at h
    | obj fs => simp at h
  · split at h <;> simp_all

/-- For a `PUBLIC_KEY` / `MESSAGE` envelope the handler is exactly the
peer-resolution step: deliver the `senderId`-stamped envelope to the
resolved peer, or an `ERROR` back to the sender. -/
theorem message_forward (s : ServerState) (id : Nat) (env : Env)
    (ht : getField env "type" = .str "PUBLIC_KEY"
        ∨ getField env "type" = .str "MESSAGE") :
    message s id env =
      match findPeer s id (lookupRole s.roles id) (getField env "targetId") with
      | some peer =>
          (s, [Output.send peer (setField env "senderId" (.num id))])
      | none => (s, [Output.send id (errorEnv (getField env "targetId"))]) := by
  rcases ht with h | h <;>
    cases hfp : findPeer s id (lookupRole s.roles id) (getField env "targetId") <;>
      simp [message, h, JVal.isStr, hfp]

end LanChat

namespace LanChat

/-! ### Concrete states used to instantiate the theorems -/

/-- A `SET_ADMIN_KEY` envelope carrying `k`. -/
def setKeyEnv (k : JVal) : Env := [("type", .str "SET_ADMIN_KEY"), ("key", k)]

/-- After one connect: connection 1 is the admin. -/
def sOne : ServerState := (run initState [.connect]).1

/-- After two connects: admin 1, user 2. -/
def sTwo : ServerState := (run initState [.connect, .connect]).1

/-- After three connects: admin 1, users 2 and 3. -/
def sThree : ServerState := (run initState [.connect, .connect, .connect]).1

/-- Admin 1 connected and the key set to the (falsy) empty string. -/
def sEmptyKey : ServerState :=
  (run initState [.connect, .msg 1 (setKeyEnv (.str ""))]).1

/-- Admin 1 connected and the key set to `"K1"`. -/
def sK1 : ServerState :=
  (run initState [.connect, .msg 1 (setKeyEnv (.str "K1"))]).1

/-! ### The claims -/

/-- Claim C1: at every connect event the new connection's role is Admin
iff no admin session exists at that moment (`adminWs` empty), and User
iff one does; hence the first connection after process start or after the
sole admin disconnected becomes Admin, every other one User. -/
theorem role_admin_iff_no_admin (s : ServerState) (id : Nat) :
    (lookupRole (wsOpen s id).1.roles id = some Role.admin ↔ s.adminWs = none)
    ∧ (lookupRole (wsOpen s id).1.roles id = some Role.user ↔ s.adminWs ≠ none) := by
  cases h : s.adminWs <;> simp [wsOpen, h, lookupRole_setRole]

/-- Claim C2, counterexample: the admin key store is not first-write-wins
for every present value.  After the admin stores the empty string the key
is present (`= ""`), yet a later `SET_ADMIN_KEY` with `"K2"` replaces it,
so a subsequent read returns `"K2"`, not the first key. -/
theorem first_write_wins_cex :
    sEmptyKey.adminLongTermPublicKey = .str ""
    ∧ (run initState [.connect, .msg 1 (setKeyEnv (.str "")),
        .msg 1 (setKeyEnv (.str "K2"))]).1.adminLongTermPublicKey = .str "K2"
    ∧ JVal.str "K2" ≠ JVal.str "" := by
  refine ⟨rfl, rfl, ?_⟩
  intro h
  injection h with h'
  exact absurd h' (by decide)

/-- Claim C2, amended: the key store is first-write-wins for truthy
values — while the stored admin key is truthy, no message whatsoever (in
particular no later `SET_ADMIN_KEY` with a different key) changes the
stored value; a stored falsy value (such as `""`) is not protected. -/
theorem truthy_key_first_write_wins (s : ServerState) (id : Nat) (env : Env)
    (h : s.adminLongTermPublicKey.truthy = true) :
    (message s id env).1.adminLongTermPublicKey = s.adminLongTermPublicKey := by
  unfold message
  dsimp only
  split
  · split
    · rename_i hc
      rw [hc.2] at h
      cases h
    · rfl
  · split
    · rfl
    · split
      · cases hfp : findPeer s id (lookupRole s.roles id) (getField env "targetId") <;>
          simp [hfp]
      · rfl

/-- Witness for the amended C2: with `"K1"` stored, a `SET_ADMIN_KEY`
carrying `"K2"` from the admin leaves the stored key unchanged. -/
theorem truthy_key_first_write_wins_witness :
    (message sK1 1 (setKeyEnv (.str "K2"))).1.adminLongTermPublicKey
      = sK1.adminLongTermPublicKey :=
  truthy_key_first_write_wins sK1 1 (setKeyEnv (.str "K2")) rfl

/-- Claim C9: the key store's absence check is JS truthiness — a
`SET_ADMIN_KEY` from the admin stores the envelope's key exactly when the
currently stored value is falsy (otherwise the store is untouched), and a
`REQUEST_ADMIN_KEY` is answered only for a truthy stored value: with a
falsy stored value it is silently dropped, as if no key were set. -/
theorem key_store_truthiness (s : ServerState) (id : Nat) (env : Env) :
    (getField env "type" = .str "SET_ADMIN_KEY" →
       lookupRole s.roles id = some Role.admin →
       (message s id env).1.adminLongTermPublicKey =
         (if s.adminLongTermPublicKey.truthy then s.adminLongTermPublicKey
          else getField env "key"))
    ∧ (getField env "type" = .str "REQUEST_ADMIN_KEY" →
       s.adminLongTermPublicKey.truthy = false →
       message s id env = (s, [])) := by
  constructor
  · intro ht hr
    cases htr : s.adminLongTermPublicKey.truthy <;>
      cases ha : s.adminWs <;>
        simp [message, ht, hr, JVal.isStr, htr, ha]
  · intro ht htr
    simp [message, ht, JVal.isStr, htr]

/-- Witness for C9: with the falsy empty string stored, the admin's
`SET_ADMIN_KEY` carrying `"K2"` overwrites the store, and a
`REQUEST_ADMIN_KEY` is dropped with no response. -/
theorem key_store_truthiness_witness :
    (message sEmptyKey 1 (setKeyEnv (.str "K2"))).1.adminLongTermPublicKey
      = (if sEmptyKey.adminLongTermPublicKey.truthy
          then sEmptyKey.adminLongTermPublicKey else .str "K2")
    ∧ message sEmptyKey 2 [("type", .str "REQUEST_ADMIN_KEY")] = (sEmptyKey, []) :=
  ⟨(key_store_truthiness sEmptyKey 1 (setKeyEnv (.str "K2"))).1 rfl rfl,
   (key_store_truthiness sEmptyKey 2 [("type", .str "REQUEST_ADMIN_KEY")]).2 rfl rfl⟩

end LanChat

namespace LanChat

/-- A `PUBLIC_KEY` envelope with an extra payload field. -/
def pkEnv : Env := [("type", .str "PUBLIC_KEY"), ("payload", .str "X")]

/-- A `PUBLIC_KEY` envelope carrying an already-present (spoofed)
`senderId` field. -/
def spoofEnv : Env :=
  [("type", .str "PUBLIC_KEY"), ("senderId", .num 99), ("payload", .str "X")]

/-- Claim C3: for an inbound `PUBLIC_KEY`/`MESSAGE`, an admin sender's
recipient is the user registered under the envelope's `targetId` and,
when peer resolution fails, exactly one `ERROR` envelope goes back to the
sender; a user sender's recipient is the admin connection and, with no
admin connected, exactly one `ERROR` goes back to the sender; in both
failure cases the state is unchanged (sender stays registered/open) and
nobody else receives anything. -/
theorem peer_resolution_and_errors (s : ServerState) (id : Nat) (env : Env)
    (ht : getField env "type" = .str "PUBLIC_KEY"
        ∨ getField env "type" = .str "MESSAGE") :
    (lookupRole s.roles id = some Role.admin →
       (∀ u, findPeer s id (some Role.admin) (getField env "targetId") = some u →
          u ∈ s.userConnections ∧ JVal.num u = getField env "targetId"
          ∧ (message s id env).2
              = [Output.send u (setField env "senderId" (.num id))])
       ∧ (findPeer s id (some Role.admin) (getField env "targetId") = none →
          message s id env
            = (s, [Output.send id (errorEnv (getField env "targetId"))])))
    ∧ (lookupRole s.roles id = some Role.user →
       (∀ a, s.adminWs = some a →
          (message s id env).2
            = [Output.send a (setField env "senderId" (.num id))])
       ∧ (s.adminWs = none →
          message s id env
            = (s, [Output.send id (errorEnv (getField env "targetId"))]))) := by
  have hm := message_forward s id env ht
  constructor
  · intro hr
    rw [hr] at hm
    constructor
    · intro u hu
      obtain ⟨hmem, heq⟩ := findPeer_admin_some s id u _ hu
      rw [hu] at hm
      exact ⟨hmem, heq, by rw [hm]⟩
    · intro hn
      rw [hn] at hm
      exact hm
  · intro hr
    rw [hr] at hm
    have hfp : findPeer s id (some Role.user) (getField env "targetId")
        = s.adminWs := by
      unfold findPeer
      simp
    rw [hfp] at hm
    constructor
    · intro a ha
      rw [ha] at hm
      rw [hm]
    · intro hn
      rw [hn] at hm
      exact hm

/-- Witness for C3: in the two-connection state, the admin sending a
`MESSAGE` to the unknown target 5 gets exactly one `ERROR` back with the
state unchanged, and user 2 with the admin present has its envelope
delivered to connection 1. -/
theorem peer_resolution_and_errors_witness :
    message sTwo 1 [("type", .str "MESSAGE"), ("targetId", .num 5)]
      = (sTwo, [Output.send 1 (errorEnv (.num 5))])
    ∧ (message sTwo 2 pkEnv).2
      = [Output.send 1 (setField pkEnv "senderId" (.num 2))] :=
  ⟨((peer_resolution_and_errors sTwo 1
      [("type", .str "MESSAGE"), ("targetId", .num 5)] (Or.inr rfl)).1 rfl).2 rfl,
   ((peer_resolution_and_errors sTwo 2 pkEnv (Or.inl rfl)).2 rfl).1 1 rfl⟩

/-- Claim C4: forwarding is a field-preserving round-trip — on a resolved
`PUBLIC_KEY`/`MESSAGE` the handler performs exactly one send, to the
resolved peer, of the inbound envelope with every field other than the
injected `senderId` unchanged and `senderId` set to the sender's id; the
state is untouched. -/
theorem forwarded_envelope_roundtrip (s : ServerState) (id peer : Nat)
    (env : Env)
    (ht : getField env "type" = .str "PUBLIC_KEY"
        ∨ getField env "type" = .str "MESSAGE")
    (hp : findPeer s id (lookupRole s.roles id) (getField env "targetId")
        = some peer) :
    message s id env = (s, [Output.send peer (setField env "senderId" (.num id))])
    ∧ (∀ k, k ≠ "senderId" →
        getField (setField env "senderId" (.num id)) k = getField env k)
    ∧ getField (setField env "senderId" (.num id)) "senderId" = .num id := by
  refine ⟨?_, fun k hk => getField_setField_ne env "senderId" k (.num id) hk,
          getField_setField_self env "senderId" (.num id)⟩
  have hm := message_forward s id env ht
  rw [hp] at hm
  exact hm

/-- Witness for C4: user 2 forwarding `pkEnv` to admin 1. -/
theorem forwarded_envelope_roundtrip_witness :
    message sTwo 2 pkEnv
      = (sTwo, [Output.send 1 (setField pkEnv "senderId" (.num 2))])
    ∧ getField (setField pkEnv "senderId" (.num 2)) "senderId" = .num 2 :=
  ⟨(forwarded_envelope_roundtrip sTwo 2 1 pkEnv (Or.inl rfl) rfl).1,
   (forwarded_envelope_roundtrip sTwo 2 1 pkEnv (Or.inl rfl) rfl).2.2⟩

set_option linter.unusedVariables false in
/-- Claim C10: `senderId` cannot be spoofed — even when the inbound
forwarded envelope already carries a `senderId` different from the
sender's connection id, the delivered envelope's `senderId` equals the
actual sender's id (the field is overwritten before delivery). -/
theorem senderId_unspoofable (s : ServerState) (id peer : Nat) (env : Env)
    (ht : getField env "type" = .str "PUBLIC_KEY"
        ∨ getField env "type" = .str "MESSAGE")
    (hp : findPeer s id (lookupRole s.roles id) (getField env "targetId")
        = some peer)
    (hs : getField env "senderId" ≠ .num id) :
    (message s id env).2 = [Output.send peer (setField env "senderId" (.num id))]
    ∧ getField (setField env "senderId" (.num id)) "senderId" = .num id := by
  have hm := message_forward s id env ht
  rw [hp] at hm
  exact ⟨by rw [hm], getField_setField_self env "senderId" (.num id)⟩

/-- Witness for C10: user 2 sends an envelope claiming `senderId = 99`;
the envelope delivered to admin 1 carries `senderId = 2`. -/
theorem senderId_unspoofable_witness :
    (message sTwo 2 spoofEnv).2
      = [Output.send 1 (setField spoofEnv "senderId" (.num 2))]
    ∧ getField (setField spoofEnv "senderId" (.num 2)) "senderId" = .num 2 :=
  senderId_unspoofable sTwo 2 1 spoofEnv (Or.inl rfl) rfl
    (by simp [spoofEnv, getField])

end LanChat

namespace LanChat

/-- A bare `REQUEST_ADMIN_KEY` envelope. -/
def reqKeyEnv : Env := [("type", .str "REQUEST_ADMIN_KEY")]

/-- Claim C5: on the admin's disconnect every registered user is sent the
offline `STATUS` notice and has its channel closed (in registry order),
and the admin slot is cleared with the user registry left empty; on a
user's disconnect only that user's entry is removed (the admin slot and
every other user entry survive) and, exactly when an admin is connected,
the admin receives one `USER_LEFT` carrying the departing id. -/
theorem disconnect_behavior (s : ServerState) (id : Nat) :
    (s.adminWs = some id →
       (wsClose s id).2 = (s.userConnections.map fun u =>
           [Output.send u adminOfflineEnv, Output.close u none none]).flatten
       ∧ (wsClose s id).1.adminWs = none
       ∧ (wsClose s id).1.userConnections = [])
    ∧ (s.adminWs ≠ some id →
       (wsClose s id).1.userConnections = s.userConnections.filter (· ≠ id)
       ∧ (wsClose s id).1.adminWs = s.adminWs
       ∧ (wsClose s id).1.adminConnections = s.adminConnections
       ∧ (∀ a, s.adminWs = some a →
           (wsClose s id).2 = [Output.send a (userLeftEnv id)])
       ∧ (s.adminWs = none → (wsClose s id).2 = [])) := by
  constructor
  · intro h
    simp [wsClose, h]
  · intro h
    cases ha : s.adminWs with
    | none => simp [wsClose, h, ha]
    | some a =>
        have hne : a ≠ id := by
          intro he
          exact h (by rw [ha, he])
        simp [wsClose, h, ha, hne]

/-- Witness for C5: in the three-connection state (admin 1, users 2, 3),
closing connection 1 notifies and closes users 2 and 3 and empties the
registry, while closing connection 2 removes only user 2 and sends admin
1 exactly one `USER_LEFT`. -/
theorem disconnect_behavior_witness :
    ((wsClose sThree 1).2 = (sThree.userConnections.map fun u =>
        [Output.send u adminOfflineEnv, Output.close u none none]).flatten
     ∧ (wsClose sThree 1).1.adminWs = none
     ∧ (wsClose sThree 1).1.userConnections = [])
    ∧ ((wsClose sThree 2).1.userConnections
        = sThree.userConnections.filter (· ≠ 2)
       ∧ (wsClose sThree 2).2 = [Output.send 1 (userLeftEnv 2)]) :=
  ⟨(disconnect_behavior sThree 1).1 rfl,
   ⟨((disconnect_behavior sThree 2).2 (by decide)).1,
    ((disconnect_behavior sThree 2).2 (by decide)).2.2.2.1 1 rfl⟩⟩

/-- Claim C6, counterexample: protocol misuse is not always silent.
With the (falsy) empty string already stored as the key, a second
`SET_ADMIN_KEY` from the admin both changes the stored value to `"K2"`
and emits a `STATUS` acknowledgment, contradicting "no response and no
state change" for a `SET_ADMIN_KEY` while a key is already stored. -/
theorem misuse_not_silent_cex :
    sEmptyKey.adminLongTermPublicKey = .str ""
    ∧ (message sEmptyKey 1 (setKeyEnv (.str "K2"))).1.adminLongTermPublicKey
        = .str "K2"
    ∧ (message sEmptyKey 1 (setKeyEnv (.str "K2"))).2
        = [Output.send 1 keyStoredEnv]
    ∧ JVal.str "K2" ≠ JVal.str "" := by
  refine ⟨rfl, rfl, rfl, ?_⟩
  intro h
  injection h with h'
  exact absurd h' (by decide)

/-- Claim C6, amended: a `SET_ADMIN_KEY` from a non-admin sender or while
the stored key is truthy, and a `REQUEST_ADMIN_KEY` while the stored key
is falsy (in particular while no key is stored), produce no outbound
message and leave the state unchanged; a stored falsy key, however, does
not protect the store. -/
theorem misuse_silent_amended (s : ServerState) (id : Nat) (env : Env) :
    (getField env "type" = .str "SET_ADMIN_KEY" →
       (lookupRole s.roles id ≠ some Role.admin
          ∨ s.adminLongTermPublicKey.truthy = true) →
       message s id env = (s, []))
    ∧ (getField env "type" = .str "REQUEST_ADMIN_KEY" →
       s.adminLongTermPublicKey.truthy = false →
       message s id env = (s, [])) := by
  constructor
  · intro ht hc
    rcases hc with hc | hc <;> simp [message, ht, JVal.isStr, hc]
  · intro ht htr
    simp [message, ht, JVal.isStr, htr]

/-- Witness for the amended C6: user 2's `SET_ADMIN_KEY`, the admin's
`SET_ADMIN_KEY` while `"K1"` is stored, and user 2's `REQUEST_ADMIN_KEY`
with no key stored are each a complete no-op. -/
theorem misuse_silent_amended_witness :
    message sTwo 2 (setKeyEnv (.str "E")) = (sTwo, [])
    ∧ message sK1 1 (setKeyEnv (.str "K2")) = (sK1, [])
    ∧ message sTwo 2 reqKeyEnv = (sTwo, []) :=
  ⟨(misuse_silent_amended sTwo 2 (setKeyEnv (.str "E"))).1 rfl
      (Or.inl (by decide)),
   (misuse_silent_amended sK1 1 (setKeyEnv (.str "K2"))).1 rfl (Or.inr rfl),
   (misuse_silent_amended sTwo 2 reqKeyEnv).2 rfl rfl⟩

/-- Claim C7, counterexample: a connection arriving while an admin
session exists is not closed and not left unregistered — after two
`connect` events the second connection is registered as a user with
role User, and no `close` output was ever emitted (the `ws.close(1000)`
guard at src/index.js:126 is unreachable because the role was just
computed from the same empty admin slot). -/
theorem second_admin_attempt_cex :
    sTwo.adminWs = some 1
    ∧ sTwo.userConnections = [2]
    ∧ lookupRole sTwo.roles 2 = some Role.user
    ∧ (run initState [.connect, .connect]).2.filter isCloseOutput = [] :=
  ⟨rfl, rfl, rfl, rfl⟩

/-- Claim C7, amended: no second admin connection attempt can occur —
whenever an admin session exists, a new connection is assigned Role User
and registered as a user (never as admin, leaving the admin slot
untouched), and the `open` handler never closes any connection in any
state, so the policy close branch is dead code. -/
theorem no_admin_capacity_close (s : ServerState) (id : Nat) :
    (wsOpen s id).2.filter isCloseOutput = []
    ∧ (∀ a, s.adminWs = some a →
        id ∈ (wsOpen s id).1.userConnections
        ∧ (wsOpen s id).1.adminWs = some a
        ∧ lookupRole (wsOpen s id).1.roles id = some Role.user) := by
  cases h : s.adminWs with
  | none => simp [wsOpen, h, isCloseOutput]
  | some a =>
      simp [wsOpen, h, isCloseOutput, lookupRole_setRole, mem_mapSet_self]

/-- Witness for the amended C7: connection 2 arriving while 1 is admin is
registered as a user, role User, admin slot untouched. -/
theorem no_admin_capacity_close_witness :
    2 ∈ (wsOpen sOne 2).1.userConnections
    ∧ (wsOpen sOne 2).1.adminWs = some 1
    ∧ lookupRole (wsOpen sOne 2).1.roles 2 = some Role.user :=
  (no_admin_capacity_close sOne 2).2 1 rfl

/-- Claim C8: no disconnect ever touches the cached admin key — the
`close` handler leaves `adminLongTermPublicKey` unchanged in every state
(the admin's own disconnect included); concretely, after admin 1 stores
`"K1"` and disconnects, the next connection becomes admin and observes
the inherited key `"K1"`. -/
theorem admin_key_never_cleared (s : ServerState) (id : Nat) :
    (wsClose s id).1.adminLongTermPublicKey = s.adminLongTermPublicKey
    ∧ (run initState [.connect, .msg 1 (setKeyEnv (.str "K1")),
        .disconnect 1, .connect]).1.adminWs = some 2
    ∧ (run initState [.connect, .msg 1 (setKeyEnv (.str "K1")),
        .disconnect 1, .connect]).1.adminLongTermPublicKey = .str "K1" := by
  refine ⟨?_, rfl, rfl⟩
  unfold wsClose
  dsimp only
  split
  · rfl
  · split <;> rfl

end LanChat
